import Mathlib

/-!
Verification of the terminus static code-quality analysis engine
(`terminus/tools/analysis/code_reviewer.py` and `code_review.py`).

The Python analyzer is shallowly embedded here:

* Python strings are Lean `String`; the helper functions `py_strip`,
  `py_startswith`, ... model the corresponding `str` methods over the
  character list, so that concrete inputs evaluate inside the kernel.
* The `ast` module is external to the analyzer, so a parsed Python file
  enters the model as data: a `PyModule` (the walk results the analyzer
  actually consumes) or a `SyntaxErrInfo` when `ast.parse` raises.
  Numeric constants are carried as rationals, which represent every
  numeric literal the comparisons `in [0, 1, -1]` and `abs(v) > 1`
  distinguish exactly.
* The mutable `CodeAnalyzer` object is explicit state passing: each
  method that appends to `self.issues` / writes `self.metrics` takes and
  returns an `AnalyzerState`.  `analyze_file` returns the final state
  together with the returned issue list and result dictionary.
* Python floats are modelled as real numbers (the maintainability index)
  or rationals (the comment ratio); `round(x, 2)` is modelled with
  Mathlib's `round` (Python rounds ties to even, which differs only on
  exact half-cent ties and is immaterial to every property stated here).
-/

/-! ## String helpers (models of Python `str` methods) -/

/-- Model of `line.strip()`: remove leading and trailing whitespace. -/
def py_strip (s : String) : String :=
  ⟨((s.toList.dropWhile Char.isWhitespace).reverse.dropWhile Char.isWhitespace).reverse⟩

/-- Model of `s.startswith(p)`. -/
def py_startswith (s p : String) : Bool :=
  p.toList.isPrefixOf s.toList

/-- Model of `s.endswith(p)`. -/
def py_endswith (s p : String) : Bool :=
  p.toList.isSuffixOf s.toList

/-- Model of `len(line) - len(line.lstrip())`: the number of leading
whitespace characters of a line. -/
def indent_of (s : String) : Nat :=
  (s.toList.takeWhile Char.isWhitespace).length

/-- Model of `line.count(ch)` for a single character. -/
def py_count_char (s : String) (ch : Char) : Nat :=
  (s.toList.filter (fun c => c = ch)).length

/-- Model of `ch in line` for a single character. -/
def py_contains_char (s : String) (ch : Char) : Bool :=
  s.toList.contains ch

/-- Model of `s.count(pat)` (non-overlapping occurrences, scanning left to
right) for a non-empty pattern; the analyzer only counts the fixed
keywords of `_estimate_js_complexity`, all non-empty. -/
def py_count_sub (pat : List Char) (s : List Char) : Nat :=
  match s with
  | [] => 0
  | c :: t =>
    if h : pat ≠ [] ∧ pat.isPrefixOf (c :: t) then
      1 + py_count_sub pat ((c :: t).drop pat.length)
    else
      py_count_sub pat t
termination_by s.length
decreasing_by
  · simp only [List.length_drop, List.length_cons]
    have : pat.length ≥ 1 := by
      cases pat with
      | nil => exact absurd rfl h.1
      | cons a l => simp
    omega
  · simp

/-- Model of `pat in s` for substrings (used by `_estimate_js_complexity`). -/
def py_contains_sub (s : String) (pat : String) : Bool :=
  py_count_sub pat.toList s.toList > 0

/-! ## Data model: issues, metrics, thresholds, analyzer state -/

/-- Severity levels of `CodeIssue.severity` (the analyzer only ever
constructs these four strings). -/
inductive Severity where
  | critical | major | minor | info
  deriving DecidableEq, Repr

/-- Issue types the analyzer constructs for `CodeIssue.type`.  The Python
field is a plain string; `syntaxK` models the string value used for
syntax errors. -/
inductive IssueType where
  | complexity | length | duplication | smell | security | naming | syntaxK
  deriving DecidableEq, Repr

/-- The `CodeIssue` dataclass.  `exampleText` models the `example` field
(`example` is a Lean keyword). -/
structure CodeIssue where
  severity : Severity
  type : IssueType
  file_path : String
  line_number : Nat
  function_name : String
  message : String
  suggestion : String
  exampleText : Option String := none
  metric_value : Option Int := none
  deriving DecidableEq, Repr

/-- The `CodeMetrics` dataclass.  The maintainability index is a Python
float, modelled as a real number. -/
structure CodeMetrics where
  lines_of_code : Nat
  cyclomatic_complexity : Nat
  cognitive_complexity : Nat
  parameter_count : Nat
  nesting_depth : Nat
  maintainability_index : ℝ

/-- The `self.thresholds` dictionary set in `CodeAnalyzer.__init__`. -/
structure Thresholds where
  max_function_length : Nat
  max_complexity : Nat
  max_cognitive_complexity : Nat
  max_parameters : Nat
  max_nesting : Nat
  min_maintainability : Nat
  deriving DecidableEq, Repr

/-- The default thresholds from `CodeAnalyzer.__init__`. -/
def default_thresholds : Thresholds :=
  { max_function_length := 50
    max_complexity := 10
    max_cognitive_complexity := 15
    max_parameters := 5
    max_nesting := 4
    min_maintainability := 20 }

/-- The mutable fields of a `CodeAnalyzer` instance: `self.issues`,
`self.metrics` (a Python dict, modelled as an insertion-ordered
association list) and `self.thresholds`. -/
structure AnalyzerState where
  issues : List CodeIssue
  metrics : List (String × CodeMetrics)
  thresholds : Thresholds

/-- A freshly constructed `CodeAnalyzer()`. -/
def init_analyzer : AnalyzerState :=
  { issues := [], metrics := [], thresholds := default_thresholds }

/-- Model of `self.issues.append(...)` / `extend` for a batch of issues
produced by one rule. -/
def append_issues (st : AnalyzerState) (new : List CodeIssue) : AnalyzerState :=
  { st with issues := st.issues ++ new }

/-- Python dict assignment `d[k] = v`: overwrite in place if the key is
present, else append at the end. -/
def dict_insert {α : Type} : List (String × α) → String → α → List (String × α)
  | [], k, v => [(k, v)]
  | p :: rest, k, v => if p.1 = k then (k, v) :: rest else p :: dict_insert rest k v

/-- Python dict lookup `d[k]` (as an `Option`). -/
def dict_lookup {α : Type} : List (String × α) → String → Option α
  | [], _ => none
  | p :: rest, k => if p.1 = k then some p.2 else dict_lookup rest k

/-! ## The Python AST, as the analyzer observes it

`_calculate_cyclomatic_complexity`, `_calculate_cognitive_complexity`,
`_calculate_nesting_depth` and `_detect_code_smells` only ever inspect a
node's runtime class (and, for `BoolOp`, `len(node.values)`; for numeric
`Constant`s, the value and line number).  A node is therefore a kind
together with its child list (`ast.iter_child_nodes`).  Kinds the
analyzer never matches are collapsed into `otherK` / `constOther`;
`funcDefK` marks a `FunctionDef` node (matched by no metric rule). -/

inductive PyNodeKind where
  | ifK | whileK | forK | asyncForK | withK | asyncWithK | tryK | exceptHandlerK
  | boolOpK
  | constNum (value : ℚ) (lineno : Nat)
  | constOther
  | passK
  | funcDefK
  | otherK
  deriving DecidableEq, Repr

inductive PyNode where
  | node (kind : PyNodeKind) (children : List PyNode)

/-- The kind of a node. -/
def PyNode.kind : PyNode → PyNodeKind
  | .node k _ => k

/-- The children of a node. -/
def PyNode.children : PyNode → List PyNode
  | .node _ cs => cs

/- Model of `ast.walk(n)`: every node of the subtree rooted at `n`.
`ast.walk` enumerates breadth-first; every use in the analyzer (summing
per-node contributions, emitting one issue per matching node) is
insensitive to enumeration order, so we enumerate structurally. -/
mutual
def py_walk : PyNode → List PyNode
  | .node k cs => .node k cs :: py_walk_list cs
def py_walk_list : List PyNode → List PyNode
  | [] => []
  | c :: cs => py_walk c ++ py_walk_list cs
end

/- Per-node contribution of `_calculate_cyclomatic_complexity`'s walk:
`If/While/For/AsyncFor`, `ExceptHandler` and `With/AsyncWith` add 1, a
`BoolOp` adds `len(node.values) - 1` (its children are its operands). -/
def cyclomatic_contrib (k : PyNodeKind) (cs : List PyNode) : Nat :=
  match k with
  | .ifK | .whileK | .forK | .asyncForK => 1
  | .exceptHandlerK => 1
  | .withK | .asyncWithK => 1
  | .boolOpK => cs.length - 1
  | _ => 0

/- Sum of cyclomatic contributions over a subtree (the body of the
`for child in ast.walk(node)` loop). -/
mutual
def cyclo_walk : PyNode → Nat
  | .node k cs => cyclomatic_contrib k cs + cyclo_walk_sum cs
def cyclo_walk_sum : List PyNode → Nat
  | [] => 0
  | c :: cs => cyclo_walk c + cyclo_walk_sum cs
end

/- Model of `_calculate_cyclomatic_complexity`. -/
def calculate_cyclomatic_complexity (n : PyNode) : Nat :=
  1 + cyclo_walk n

/-- Kinds that `visit_node` in `_calculate_cognitive_complexity` matches
with a nesting increment. -/
def is_cognitive_kind : PyNodeKind → Bool
  | .ifK | .whileK | .forK | .asyncForK | .exceptHandlerK => true
  | _ => false

/- Model of the recursive `visit_node(node, level)` of
`_calculate_cognitive_complexity`. -/
mutual
def visit_cognitive : PyNode → Nat → Nat
  | .node k cs, level =>
    if is_cognitive_kind k then
      (1 + level) + visit_cognitive_list cs (level + 1)
    else if k = .boolOpK then
      (cs.length - 1) + visit_cognitive_list cs level
    else
      visit_cognitive_list cs level
def visit_cognitive_list : List PyNode → Nat → Nat
  | [], _ => 0
  | c :: cs, level => visit_cognitive c level + visit_cognitive_list cs level
end

/- Model of `_calculate_cognitive_complexity`: the children of the
function node are visited at nesting level 0. -/
def calculate_cognitive_complexity (n : PyNode) : Nat :=
  visit_cognitive_list n.children 0

/-- Kinds that `get_depth` in `_calculate_nesting_depth` counts as a
nesting level (`If, While, For, AsyncFor, With, AsyncWith, Try`). -/
def is_nesting_kind : PyNodeKind → Bool
  | .ifK | .whileK | .forK | .asyncForK | .withK | .asyncWithK | .tryK => true
  | _ => false

/- Model of the recursive `get_depth(node, current_depth)`: `max_depth`
starts at the incoming depth, the node possibly increments the depth
passed to its children, and the maximum over the children is folded in. -/
mutual
def get_depth : PyNode → Nat → Nat
  | .node k cs, current =>
    get_depth_list cs (if is_nesting_kind k then current + 1 else current) current
def get_depth_list : List PyNode → Nat → Nat → Nat
  | [], _, maxd => maxd
  | c :: cs, cur, maxd => get_depth_list cs cur (max maxd (get_depth c cur))
end

/-- Model of `_calculate_nesting_depth`. -/
def calculate_nesting_depth (n : PyNode) : Nat :=
  get_depth n 0

/-! ## Maintainability index -/

/-- Model of `round(x, 2)` on reals. -/
noncomputable def py_round2_real (x : ℝ) : ℝ :=
  ((round (x * 100) : ℤ) : ℝ) / 100

/-- Model of `_calculate_maintainability_index(loc, complexity, cognitive)`
(the `cognitive` argument is accepted and unused, as in the source). -/
noncomputable def calculate_maintainability_index
    (loc complexity cognitive : Nat) : ℝ :=
  if loc = 0 then 100
  else
    let volume : ℝ := (loc : ℝ) * 2.4
    py_round2_real (max 0
      ((171 - 5.2 * volume ^ (0.23 : ℝ) - 0.23 * (complexity : ℝ)
          - 16.2 * (loc : ℝ) ^ (0.5 : ℝ)) * 100 / 171))

/-! ## Issue checks (`_check_*`)

Each `_check_*` method appends at most one issue (naming: up to three) to
`self.issues`.  We model each as a pure function returning the list of
issues it appends; the caller appends them with `append_issues`, which is
observationally the same splitting of the source's accumulator code. -/

/-- Model of `_check_function_length`. -/
def check_function_length_issues (th : Thresholds) (func_name : String)
    (length : Nat) (line_num : Nat) (file_path : String) : List CodeIssue :=
  if length > th.max_function_length then
    [{ severity := if length > th.max_function_length * 2 then .critical else .major
       type := .length
       file_path := file_path
       line_number := line_num
       function_name := func_name
       message := "Function \x27" ++ func_name ++ "\x27 is too long ("
         ++ toString length ++ " lines)"
       suggestion := "Consider breaking this function into smaller, more focused functions. Aim for functions under "
         ++ toString th.max_function_length ++ " lines."
       exampleText := some "# Example refactoring:\ndef large_function():\n    # Split into:\n    data = prepare_data()\n    result = process_data(data)\n    return format_result(result)"
       metric_value := some (length : Int) }]
  else []

/-- Model of `_check_complexity`: `complexity > max_complexity * 1.5` is a
float comparison in Python; `1.5` is exactly `3/2` and both operands are
small integers, so the comparison below is the same test. -/
def check_complexity_issues (th : Thresholds) (func_name : String)
    (complexity : Nat) (line_num : Nat) (file_path : String) : List CodeIssue :=
  if complexity > th.max_complexity then
    [{ severity :=
         if mkRat complexity 1 > mkRat (3 * th.max_complexity) 2 then .critical
         else .major
       type := .complexity
       file_path := file_path
       line_number := line_num
       function_name := func_name
       message := "Function \x27" ++ func_name ++ "\x27 has high cyclomatic complexity ("
         ++ toString complexity ++ ")"
       suggestion := "Reduce complexity by extracting nested logic into separate functions, using early returns, or simplifying conditional logic."
       exampleText := some "# Instead of:\nif condition1:\n    if condition2:\n        if condition3:\n            do_something()\n# Try:\nif not condition1:\n    return\nif not condition2:\n    return\nif condition3:\n    do_something()"
       metric_value := some (complexity : Int) }]
  else []

/-- Model of `_check_cognitive_complexity`. -/
def check_cognitive_complexity_issues (th : Thresholds) (func_name : String)
    (cognitive : Nat) (line_num : Nat) (file_path : String) : List CodeIssue :=
  if cognitive > th.max_cognitive_complexity then
    [{ severity := .major
       type := .complexity
       file_path := file_path
       line_number := line_num
       function_name := func_name
       message := "Function \x27" ++ func_name ++ "\x27 has high cognitive complexity ("
         ++ toString cognitive ++ ")"
       suggestion := "Reduce cognitive load by simplifying nested conditions, extracting complex expressions, and reducing nesting levels."
       exampleText := none
       metric_value := some (cognitive : Int) }]
  else []

/-- Model of `_check_parameter_count`. -/
def check_parameter_count_issues (th : Thresholds) (func_name : String)
    (param_count : Nat) (line_num : Nat) (file_path : String) : List CodeIssue :=
  if param_count > th.max_parameters then
    [{ severity := .major
       type := .smell
       file_path := file_path
       line_number := line_num
       function_name := func_name
       message := "Function \x27" ++ func_name ++ "\x27 has too many parameters ("
         ++ toString param_count ++ ")"
       suggestion := "Consider using a configuration object, dataclass, or named parameters to group related parameters."
       exampleText := some "# Instead of:\ndef func(a, b, c, d, e, f):\n    pass\n# Try:\n@dataclass\nclass Config:\n    a: int\n    b: str\n    ...\ndef func(config: Config):"
       metric_value := some (param_count : Int) }]
  else []

/-- Model of `_check_nesting_depth`. -/
def check_nesting_depth_issues (th : Thresholds) (func_name : String)
    (depth : Nat) (line_num : Nat) (file_path : String) : List CodeIssue :=
  if depth > th.max_nesting then
    [{ severity := .major
       type := .complexity
       file_path := file_path
       line_number := line_num
       function_name := func_name
       message := "Function \x27" ++ func_name ++ "\x27 has deep nesting ("
         ++ toString depth ++ " levels)"
       suggestion := "Reduce nesting by using early returns, extracting nested logic, or using guard clauses."
       exampleText := some "# Instead of deep nesting:\nif condition1:\n    if condition2:\n        if condition3:\n            return result\n# Use guard clauses:\nif not condition1:\n    return None\nif not condition2:\n    return None\nif condition3:\n    return result"
       metric_value := some (depth : Int) }]
  else []

/-- Model of the regex `^[a-z_][a-z0-9_]*$` from `_check_function_naming`. -/
def is_snake_case (s : String) : Bool :=
  match s.toList with
  | [] => false
  | c :: rest =>
    (c.isLower || c = '_')
      && rest.all (fun d => d.isLower || d.isDigit || d = '_')

/-- Model of `_check_function_naming`: collect the violation messages,
then emit one `minor`/`naming` issue per message. -/
def check_function_naming_issues (func_name : String) (line_num : Nat)
    (file_path : String) : List CodeIssue :=
  let msgs : List String :=
    (if py_endswith file_path ".py" && !is_snake_case func_name
        && func_name ≠ "__init__" && !py_startswith func_name "__" then
      ["Use snake_case for Python function names"]
    else []) ++
    (if func_name.length ≤ 2 && !(["go", "do", "is", "as"].contains func_name) then
      ["Function name is too short and not descriptive"]
    else []) ++
    (if func_name.length > 50 then ["Function name is too long"] else [])
  msgs.map (fun m =>
    { severity := .minor
      type := .naming
      file_path := file_path
      line_number := line_num
      function_name := func_name
      message := "Function \x27" ++ func_name ++ "\x27: " ++ m
      suggestion := "Use descriptive, properly formatted function names that clearly indicate the function\x27s purpose."
      exampleText := none
      metric_value := none })

/-! ## Code smells (`_detect_code_smells`) -/

/-- The function definitions the analyzer extracts from `ast.walk(tree)`:
name, `lineno`, the names in `args.args` (which include `self` for
methods), and the child nodes of the `FunctionDef`. -/
structure FuncDef where
  name : String
  lineno : Nat
  args : List String
  body : List PyNode

/-- The `FunctionDef` node itself, as walked by the metric calculators. -/
def FuncDef.node (f : FuncDef) : PyNode :=
  .node .funcDefK f.body

/-- The issue built for one magic-number constant. `toString` of a
rational renders integers as Python does; non-integral values render as
fractions, a message-text-only divergence no property here inspects. -/
def magic_number_issue (file_path func_name : String) (v : ℚ) (lineno : Nat) :
    CodeIssue :=
  { severity := .minor
    type := .smell
    file_path := file_path
    line_number := lineno
    function_name := func_name
    message := "Magic number " ++ toString v ++ " found"
    suggestion := "Replace magic numbers with named constants."
    exampleText := some ("# Instead of: value * " ++ toString v ++ "\n# Use: MAX_RETRIES = "
      ++ toString v ++ "\n#      value * MAX_RETRIES")
    metric_value := none }

/-- The magic-number test applied to each walked node: a numeric constant
with `node.value not in [0, 1, -1] and abs(node.value) > 1`.  The Python
`getattr(node, 'lineno', func_node.lineno)` always finds `lineno` on a
`Constant` node, so the constant's own line is used. -/
def magic_number_of (file_path func_name : String) : PyNode → Option CodeIssue
  | .node (.constNum v ln) _ =>
    if ¬(v = 0 ∨ v = 1 ∨ v = -1) ∧ |v| > 1 then
      some (magic_number_issue file_path func_name v ln)
    else none
  | _ => none

/-- The empty-function check of `_detect_code_smells`:
`len(func_node.body) == 1 and isinstance(func_node.body[0], ast.Pass)`. -/
def empty_function_issues (f : FuncDef) (file_path : String) : List CodeIssue :=
  match f.body with
  | [PyNode.node .passK _] =>
    [{ severity := .minor
       type := .smell
       file_path := file_path
       line_number := f.lineno
       function_name := f.name
       message := "Function \x27" ++ f.name ++ "\x27 is empty"
       suggestion := "Implement the function or remove it if not needed."
       exampleText := none
       metric_value := none }]
  | _ => []

/-- Model of `_detect_code_smells`: the empty-function check on the body,
then one issue per magic-number constant in the walk of the function. -/
def detect_code_smells_issues (f : FuncDef) (file_path : String) : List CodeIssue :=
  empty_function_issues f file_path ++
  (py_walk f.node).filterMap (magic_number_of file_path f.name)

/-! ## Imports (`_analyze_python_imports`) -/

/-- An `ast.ImportFrom` node as the import analysis observes it.  The
first walk of `_analyze_python_imports` collects module names into a
local list that is never used; only the wildcard check emits issues. -/
structure ImportFromStmt where
  module : String
  names : List String
  lineno : Nat

/-- Model of the wildcard-import check of `_analyze_python_imports`: one
`major`/`smell` issue per alias equal to `*`. -/
def analyze_python_imports_issues (imports : List ImportFromStmt)
    (file_path : String) : List CodeIssue :=
  imports.flatMap (fun imp =>
    (imp.names.filter (fun a => a = "*")).map (fun _ =>
      { severity := .major
        type := .smell
        file_path := file_path
        line_number := imp.lineno
        function_name := ""
        message := "Wildcard import found"
        suggestion := "Avoid wildcard imports. Import specific names or use qualified imports."
        exampleText := some "# Instead of: from module import *\n# Use: from module import specific_function\n# Or: import module"
        metric_value := none }))

/-! ## Duplication detection (`_detect_code_duplication`) -/

/-- The `min_duplicate_lines = 5` constant. -/
def min_duplicate_lines : Nat := 5

/-- The window `lines[i : i + 5]`. -/
def dup_window (lines : List String) (i : Nat) : List String :=
  (lines.drop i).take min_duplicate_lines

/-- The skip test: every line of the window is blank or a `#` comment
after stripping. -/
def dup_window_skippable (w : List String) : Bool :=
  w.all (fun line => py_strip line = "" || py_startswith (py_strip line) "#")

/-- The inner loop of `_detect_code_duplication`: scan the candidate
start indices in order and stop at the first `j` whose window equals
window `i` (the `break`). -/
def find_first_dup (lines : List String) (i : Nat) : List Nat → Option Nat
  | [] => none
  | j :: js =>
    if dup_window lines j = dup_window lines i then some j
    else find_first_dup lines i js

/-- The candidate indices `range(i + 5, len(lines) - 5)` of the inner loop. -/
def dup_scan_range (lines : List String) (i : Nat) : List Nat :=
  List.range' (i + min_duplicate_lines)
    (lines.length - min_duplicate_lines - (i + min_duplicate_lines))

/-- The `(i, j)` pairs reported by `_detect_code_duplication`, in order of
the outer loop `for i in range(len(lines) - 5)`. -/
def detect_code_duplication_pairs (lines : List String) : List (Nat × Nat) :=
  (List.range (lines.length - min_duplicate_lines)).filterMap (fun i =>
    if dup_window_skippable (dup_window lines i) then none
    else (find_first_dup lines i (dup_scan_range lines i)).map (fun j => (i, j)))

/-- The issue emitted for one duplication pair (1-based line ranges
`[i+1, i+5]` and `[j+1, j+5]`). -/
def duplication_issue (file_path : String) (i j : Nat) : CodeIssue :=
  { severity := .major
    type := .duplication
    file_path := file_path
    line_number := i + 1
    function_name := ""
    message := "Code duplication detected (lines " ++ toString (i + 1) ++ "-"
      ++ toString (i + min_duplicate_lines) ++ " and " ++ toString (j + 1) ++ "-"
      ++ toString (j + min_duplicate_lines) ++ ")"
    suggestion := "Extract duplicate code into a shared function or method."
    exampleText := some "# Extract to a function:\ndef shared_logic():\n    # Common code here\n    pass\n\n# Call from both places:\nshared_logic()"
    metric_value := none }

/-- Model of `_detect_code_duplication` (the `language` argument of the
source is unused by the detection itself). -/
def detect_code_duplication_issues (lines : List String) (file_path : String) :
    List CodeIssue :=
  (detect_code_duplication_pairs lines).map (fun p => duplication_issue file_path p.1 p.2)

/-! ## File metrics and severity grouping -/

/-- Model of `round(x, 2)` on rationals. -/
def py_round2_rat (q : ℚ) : ℚ :=
  ((round (q * 100) : ℤ) : ℚ) / 100

/-- The `_calculate_file_metrics` result dictionary.  `comment_ratio` is a
Python float division, modelled exactly on rationals; `blank_lines` is
the integer subtraction of the source. -/
structure FileMetrics where
  total_lines : Nat
  code_lines : Nat
  comment_lines : Nat
  comment_ratio : ℚ
  blank_lines : Int

/-- Model of `_calculate_file_metrics` (the file content is already split
into lines). -/
def calculate_file_metrics (lines : List String) : FileMetrics :=
  let total_lines := lines.length
  let code_lines := (lines.filter (fun l =>
    py_strip l ≠ "" && !py_startswith (py_strip l) "#")).length
  let comment_lines := (lines.filter (fun l => py_startswith (py_strip l) "#")).length
  { total_lines := total_lines
    code_lines := code_lines
    comment_lines := comment_lines
    comment_ratio := py_round2_rat ((comment_lines : ℚ) / (max code_lines 1 : ℚ) * 100)
    blank_lines := (total_lines : Int) - code_lines - comment_lines }

/-- The `issues_by_severity` dictionary of `_group_issues_by_severity`.
The Python `defaultdict(int)` omits absent keys; a zero count models an
absent key, with the same value sum. -/
structure SeverityCounts where
  critical : Nat
  major : Nat
  minor : Nat
  info : Nat
  deriving DecidableEq, Repr

/-- One `groups[issue.severity] += 1` step. -/
def bump_severity (c : SeverityCounts) : Severity → SeverityCounts
  | .critical => { c with critical := c.critical + 1 }
  | .major => { c with major := c.major + 1 }
  | .minor => { c with minor := c.minor + 1 }
  | .info => { c with info := c.info + 1 }

/-- Model of `_group_issues_by_severity`. -/
def group_issues_by_severity (issues : List CodeIssue) : SeverityCounts :=
  issues.foldl (fun c i => bump_severity c i.severity) ⟨0, 0, 0, 0⟩

/-- Sum of the severity-count dictionary values. -/
def severity_counts_total (c : SeverityCounts) : Nat :=
  c.critical + c.major + c.minor + c.info

/-! ## Function line extraction (`_get_function_lines`) -/

/-- Model of `_get_function_lines`: from the function's start line, the
region extends while lines are blank or indented deeper than the `def`
line (the indentation heuristic of the source), and blank lines are then
filtered out.  A `lineno` beyond the file (impossible for a real parse,
where the source would raise) yields the empty list. -/
def get_function_lines (lines : List String) (lineno : Nat) : List String :=
  match lines.drop (lineno - 1) with
  | [] => []
  | first :: rest =>
    let indent_level := indent_of first
    let region := first :: rest.takeWhile (fun l =>
      !(py_strip l ≠ "" && decide (indent_of l ≤ indent_level)))
    region.filter (fun l => py_strip l ≠ "")

/-! ## Per-function analysis (`_analyze_python_function`) -/

/-- Model of `_analyze_python_function`: compute the metrics, store them
under the function's name, then run the per-function checks and the smell
detection, appending their issues in source order. -/
noncomputable def analyze_python_function (st : AnalyzerState) (lines : List String)
    (f : FuncDef) (file_path : String) : AnalyzerState :=
  let func_lines := get_function_lines lines f.lineno
  let complexity := calculate_cyclomatic_complexity f.node
  let cognitive := calculate_cognitive_complexity f.node
  let param_count := f.args.length
  let nesting := calculate_nesting_depth f.node
  let metrics : CodeMetrics :=
    { lines_of_code := func_lines.length
      cyclomatic_complexity := complexity
      cognitive_complexity := cognitive
      parameter_count := param_count
      nesting_depth := nesting
      maintainability_index :=
        calculate_maintainability_index func_lines.length complexity cognitive }
  let st := { st with metrics := dict_insert st.metrics f.name metrics }
  let st := append_issues st
    (check_function_length_issues st.thresholds f.name func_lines.length f.lineno file_path)
  let st := append_issues st
    (check_complexity_issues st.thresholds f.name complexity f.lineno file_path)
  let st := append_issues st
    (check_cognitive_complexity_issues st.thresholds f.name cognitive f.lineno file_path)
  let st := append_issues st
    (check_parameter_count_issues st.thresholds f.name param_count f.lineno file_path)
  let st := append_issues st
    (check_nesting_depth_issues st.thresholds f.name nesting f.lineno file_path)
  let st := append_issues st (check_function_naming_issues f.name f.lineno file_path)
  append_issues st (detect_code_smells_issues f file_path)

/-! ## Whole-file analysis -/

/-- The information carried by `SyntaxError` that `_analyze_python_file`
reads: `e.lineno` (possibly `None`) and `e.msg`. -/
structure SyntaxErrInfo where
  lineno : Option Nat
  msg : String

/-- Model of Python `x or 1` on the optional line number (`None` and `0`
are both falsy). -/
def lineno_or_one : Option Nat → Nat
  | some n => if n = 0 then 1 else n
  | none => 1

/-- The parts of a parsed module (`ast.parse` output) the analyzer walks:
every `FunctionDef` and every `ImportFrom` in `ast.walk(tree)` order.
`ClassDef` nodes are also collected by the source but never used. -/
structure PyModule where
  functions : List FuncDef
  import_froms : List ImportFromStmt

/-- Model of `_analyze_python_file`.  `ast.parse` is external to the
analyzer, so its outcome (a module or a `SyntaxError`) is an input. -/
noncomputable def analyze_python_file (st : AnalyzerState) (lines : List String)
    (parse_result : Except SyntaxErrInfo PyModule) (file_path : String) :
    AnalyzerState :=
  match parse_result with
  | .ok m =>
    let st := m.functions.foldl
      (fun s f => analyze_python_function s lines f file_path) st
    let st := append_issues st (detect_code_duplication_issues lines file_path)
    append_issues st (analyze_python_imports_issues m.import_froms file_path)
  | .error e =>
    append_issues st
      [{ severity := .critical
         type := .syntaxK
         file_path := file_path
         line_number := lineno_or_one e.lineno
         function_name := ""
         message := "Syntax error: " ++ e.msg
         suggestion := "Fix the syntax error before proceeding with analysis"
         exampleText := none
         metric_value := none }]

/-- Model of the brace-counting loop of `_analyze_js_function_block`:
`started` flips at the first line containing a brace, lines are collected
once started, and collection stops when the balance returns to zero. -/
def js_collect_lines : List String → Bool → Int → List String → List String
  | [], _, _, acc => acc.reverse
  | line :: rest, started, bc, acc =>
    let has_open := py_contains_char line '{'
    let started2 := started || has_open
    let bc2 := if has_open then bc + py_count_char line '{' else bc
    if started2 then
      let acc2 := line :: acc
      let bc3 := bc2 - py_count_char line '}'
      if bc3 = 0 then acc2.reverse
      else js_collect_lines rest true bc3 acc2
    else
      js_collect_lines rest started2 bc2 acc

/-- The keyword list of `_estimate_js_complexity`. -/
def js_complexity_keywords : List String :=
  ["if", "else if", "while", "for", "switch", "case", "catch", "&&", "||"]

/-- Model of `_estimate_js_complexity`. -/
def estimate_js_complexity (lines : List String) : Nat :=
  lines.foldl (fun c line =>
    js_complexity_keywords.foldl (fun c kw =>
      if py_contains_sub line kw then c + py_count_sub kw.toList line.toList else c) c) 1

/-- Model of `_analyze_js_function_block`. -/
def analyze_js_function_block (st : AnalyzerState) (lines : List String)
    (start_idx : Nat) (func_name : String) (file_path : String) : AnalyzerState :=
  let func_lines := js_collect_lines (lines.drop start_idx) false 0 []
  if func_lines ≠ [] then
    let func_length := (func_lines.filter (fun l => py_strip l ≠ "")).length
    let complexity := estimate_js_complexity func_lines
    let st := append_issues st
      (check_function_length_issues st.thresholds func_name func_length (start_idx + 1) file_path)
    if complexity > st.thresholds.max_complexity then
      append_issues st
        (check_complexity_issues st.thresholds func_name complexity (start_idx + 1) file_path)
    else st
  else st

/-- Model of `_analyze_javascript_file`.  The `re.search` against
`function_pattern` (and the extraction of the first non-empty group,
defaulting to `anonymous`) belongs to Python's `re` engine, external to
the analyzer; the matcher is therefore a parameter: for each line it
yields the detected function name, or `none` when the regex does not
match. -/
def analyze_javascript_file (js_matcher : String → Option String)
    (st : AnalyzerState) (lines : List String) (file_path : String) : AnalyzerState :=
  let st := lines.enum.foldl (fun s p =>
    match js_matcher p.2 with
    | some func_name => analyze_js_function_block s lines p.1 func_name file_path
    | none => s) st
  append_issues st (detect_code_duplication_issues lines file_path)

/-- The result dictionary of a successful `analyze_file` call, or the
`{"error": ...}` dictionary. -/
inductive AnalysisOutput where
  | err (msg : String)
  | ok (file_metrics : FileMetrics) (function_metrics : List (String × CodeMetrics))
      (issues_by_severity : SeverityCounts) (suggestions_count : Nat)

/-- The `function_metrics` entry of a successful result. -/
def AnalysisOutput.function_metrics? : AnalysisOutput → Option (List (String × CodeMetrics))
  | .ok _ fm _ _ => some fm
  | .err _ => none

/-- The input of one `analyze_file(file_path)` call, as the analyzer
observes it: whether `Path(file_path).exists()`, the lowercased suffix,
the content split into lines, and the outcome `ast.parse` would produce
on the content (consulted only on the `.py` branch). -/
structure FileInput where
  path : String
  found : Bool
  ext : String
  lines : List String
  py_parse : Except SyntaxErrInfo PyModule

/-- The common successful return of `analyze_file`: the issue list plus
the result dictionary built from the final state. -/
def mk_analysis_result (st : AnalyzerState) (inp : FileInput) :
    AnalyzerState × List CodeIssue × AnalysisOutput :=
  (st, st.issues,
    .ok (calculate_file_metrics inp.lines) st.metrics
      (group_issues_by_severity st.issues) st.issues.length)

/-- Model of `CodeAnalyzer.analyze_file`: reset the accumulators, check
existence, dispatch on the extension, and return `self.issues` together
with the result dictionary.  The `except Exception` wrapper of the source
converts raised exceptions to an error result; no modelled path raises. -/
noncomputable def analyze_file (js_matcher : String → Option String)
    (st : AnalyzerState) (inp : FileInput) :
    AnalyzerState × List CodeIssue × AnalysisOutput :=
  let st0 : AnalyzerState := { st with issues := [], metrics := [] }
  if inp.found = false then
    (st0, [], .err ("File not found: " ++ inp.path))
  else if inp.ext = ".py" then
    mk_analysis_result (analyze_python_file st0 inp.lines inp.py_parse inp.path) inp
  else if [".js", ".ts", ".jsx", ".tsx"].contains inp.ext then
    mk_analysis_result (analyze_javascript_file js_matcher st0 inp.lines inp.path) inp
  else
    (st0, [], .err ("Unsupported file type: " ++ inp.ext))

/-! ## Directory review truncation (`_review_directory`) -/

/-- Model of the file-cap fragment of `_review_directory`: when more than
20 files are found the list is truncated to 20 first, and the notice is
then built from `len(code_files)` — the length of the already-truncated
list. -/
def review_directory_truncation (code_files : List String) : List String × String :=
  if code_files.length > 20 then
    let code_files := code_files.take 20
    (code_files, "\n*Note: Limited to first 20 files. Found "
      ++ toString code_files.length ++ " total.*")
  else
    (code_files, "")

/-! ## Spec-side comparison definitions -/

/-- Modelled from the spec: `parameter_count` as the spec defines it,
"count of declared positional/named parameters, excluding implicit
receiver parameters (e.g. `self`/`this`) where the language convention
defines one" — for a Python method whose first parameter is `self`, that
parameter is not counted. -/
def spec_parameter_count (args : List String) : Nat :=
  match args with
  | "self" :: rest => rest.length
  | _ => args.length

/-- Modelled from the spec: the magic-number trigger as the spec states
it, "any numeric literal whose absolute value is not in {0, 1}". -/
def spec_magic_literal : PyNode → Bool
  | .node (.constNum v _) _ => decide (¬(|v| = 0 ∨ |v| = 1))
  | _ => false

/-- The magic-number trigger as the code implements it (the `not in
[0, 1, -1]` clause is subsumed by `abs(node.value) > 1`). -/
def is_magic_constant : PyNode → Bool
  | .node (.constNum v _) _ => decide (¬(v = 0 ∨ v = 1 ∨ v = -1) ∧ |v| > 1)
  | _ => false

/-- Within the output of `_detect_code_smells`, the magic-number issues
are exactly those carrying an example snippet (the empty-function issue
has none); this selector avoids inspecting message text. -/
def has_example_text (i : CodeIssue) : Bool :=
  i.exampleText.isSome

/-! ## Auxiliary predicates and concrete inputs used by the claim theorems -/

/-- Kinds the cyclomatic walk counts with a fixed increment: the
conditional / loop / exception-handler / resource-scope nodes. -/
def is_branch_kind : PyNodeKind → Bool
  | .ifK | .whileK | .forK | .asyncForK | .exceptHandlerK | .withK | .asyncWithK => true
  | _ => false

/-- The invariant of a returned analysis result: on the successful
branches the severity counts sum to the length of the returned issue
list (error results carry no counts). -/
def output_sum_ok : AnalyzerState × List CodeIssue × AnalysisOutput → Prop
  | (_, issues, .ok _ _ counts _) => severity_counts_total counts = issues.length
  | (_, _, .err _) => True

/-- A function body holding the literals `42` and `0.5` on line 2
(e.g. `def scale(value): return 42 + 0.5`): two numeric literals whose
absolute value is outside {0, 1}, one of them a fraction below 1. -/
def c1_function : FuncDef :=
  { name := "scale", lineno := 1, args := ["value"],
    body := [PyNode.node .otherK
      [PyNode.node .otherK
        [PyNode.node (.constNum 42 2) [], PyNode.node (.constNum (mkRat 1 2) 2) []]]] }

/-- A directory scan result of 21 code files. -/
def c2_files : List String := (List.range 21).map (fun i => "f" ++ toString i ++ ".py")

/-- An 18-line file: an identical 6-line block at lines 1-6 and at lines
12-17, separated by five other lines, followed by one trailing line. -/
def c3_file : List String :=
  ["total = base + rate", "if total > limit:", "    total = limit", "log(total)",
   "emit(total)", "flush()",
   "x1 = setup()", "x2 = probe()", "x3 = snap()", "x4 = wrap()", "x5 = seal()",
   "total = base + rate", "if total > limit:", "    total = limit", "log(total)",
   "emit(total)", "flush()",
   "done = finish()"]

/-- A Python method whose `args.args` are `self, r`. -/
def c4_method : FuncDef :=
  { name := "area", lineno := 1, args := ["self", "r"], body := [PyNode.node .otherK []] }

/-- The source lines of `c4_method`. -/
def c4_lines : List String := ["def area(self, r):", "    return r"]

/-- Twelve sequential `if` statements at the top level of a function
body, each with a test expression and a `pass` body and no nesting. -/
def twelve_if_body : List PyNode :=
  List.replicate 12 (PyNode.node .ifK [PyNode.node .otherK [], PyNode.node .passK []])

/-- A function consisting of `twelve_if_body`. -/
def twelve_if_function : FuncDef :=
  { name := "handle_event", lineno := 1, args := ["event"], body := twelve_if_body }

/-- A straight-line function node: no conditionals, loops, exception
handlers, resource scopes or boolean-operator chains anywhere. -/
def straight_node : PyNode :=
  PyNode.node .funcDefK [PyNode.node .otherK [PyNode.node .constOther []]]

/-- A `.py` file on which `ast.parse` raises a `SyntaxError` at line 1. -/
def c6_input : FileInput :=
  { path := "broken.py", found := true, ext := ".py", lines := ["def f(:"],
    py_parse := .error { lineno := some 1, msg := "invalid syntax" } }

/-- An analyzer state carrying stale issues and metrics from an earlier
call (thresholds unchanged), used to show result independence. -/
def stale_state : AnalyzerState :=
  { issues := [{ severity := .major, type := .length, file_path := "old.py",
                 line_number := 3, function_name := "old_func",
                 message := "Function \x27old_func\x27 is too long (80 lines)",
                 suggestion := "Consider breaking this function into smaller, more focused functions.",
                 exampleText := none, metric_value := some 80 }]
    metrics := []
    thresholds := default_thresholds }

/-- A small well-formed JavaScript file input. -/
def c10_input : FileInput :=
  { path := "app.js", found := true, ext := ".js", lines := ["x = 1"],
    py_parse := .ok { functions := [], import_froms := [] } }

/-! ## Supporting lemmas -/

theorem dict_lookup_insert {α : Type} (d : List (String × α)) (k : String) (v : α) :
    dict_lookup (dict_insert d k v) k = some v := by
  induction d with
  | nil => simp [dict_insert, dict_lookup]
  | cons p rest ih =>
    by_cases h : p.1 = k
    · simp [dict_insert, h, dict_lookup]
    · simp [dict_insert, h, dict_lookup, ih]

theorem bump_severity_total (c : SeverityCounts) (s : Severity) :
    severity_counts_total (bump_severity c s) = severity_counts_total c + 1 := by
  cases s <;> simp [bump_severity, severity_counts_total] <;> omega

theorem group_total_aux (l : List CodeIssue) :
    ∀ c : SeverityCounts,
      severity_counts_total (l.foldl (fun c i => bump_severity c i.severity) c)
        = severity_counts_total c + l.length := by
  induction l with
  | nil => intro c; simp
  | cons i t ih =>
    intro c
    simp only [List.foldl_cons, ih, bump_severity_total, List.length_cons]
    omega

theorem group_issues_total (l : List CodeIssue) :
    severity_counts_total (group_issues_by_severity l) = l.length := by
  unfold group_issues_by_severity
  rw [group_total_aux]
  simp [severity_counts_total]

theorem output_sum_ok_mk (st : AnalyzerState) (inp : FileInput) :
    output_sum_ok (mk_analysis_result st inp) := by
  simp [mk_analysis_result, output_sum_ok, group_issues_total]

theorem append_issues_thresholds (st : AnalyzerState) (l : List CodeIssue) :
    (append_issues st l).thresholds = st.thresholds := rfl

theorem append_issues_metrics (st : AnalyzerState) (l : List CodeIssue) :
    (append_issues st l).metrics = st.metrics := rfl

theorem foldl_preserves {β γ : Type} (proj : AnalyzerState → γ)
    (f : AnalyzerState → β → AnalyzerState)
    (hf : ∀ s b, proj (f s b) = proj s) :
    ∀ (l : List β) (s : AnalyzerState), proj (l.foldl f s) = proj s := by
  intro l
  induction l with
  | nil => intro s; rfl
  | cons b t ih => intro s; rw [List.foldl_cons, ih, hf]

theorem analyze_python_function_thresholds (st : AnalyzerState) (lines : List String)
    (f : FuncDef) (fp : String) :
    (analyze_python_function st lines f fp).thresholds = st.thresholds := by
  simp [analyze_python_function, append_issues]

theorem analyze_python_function_metrics (st : AnalyzerState) (lines : List String)
    (f : FuncDef) (fp : String) :
    (analyze_python_function st lines f fp).metrics
      = dict_insert st.metrics f.name
          { lines_of_code := (get_function_lines lines f.lineno).length
            cyclomatic_complexity := calculate_cyclomatic_complexity f.node
            cognitive_complexity := calculate_cognitive_complexity f.node
            parameter_count := f.args.length
            nesting_depth := calculate_nesting_depth f.node
            maintainability_index :=
              calculate_maintainability_index (get_function_lines lines f.lineno).length
                (calculate_cyclomatic_complexity f.node)
                (calculate_cognitive_complexity f.node) } := by
  simp [analyze_python_function, append_issues]

theorem analyze_python_file_thresholds (st : AnalyzerState) (lines : List String)
    (pr : Except SyntaxErrInfo PyModule) (fp : String) :
    (analyze_python_file st lines pr fp).thresholds = st.thresholds := by
  cases pr with
  | error e => rfl
  | ok m =>
    simp only [analyze_python_file, append_issues_thresholds]
    exact foldl_preserves AnalyzerState.thresholds _
      (fun s f => analyze_python_function_thresholds s lines f fp) m.functions st

theorem analyze_js_function_block_thresholds (st : AnalyzerState) (lines : List String)
    (i : Nat) (name fp : String) :
    (analyze_js_function_block st lines i name fp).thresholds = st.thresholds := by
  unfold analyze_js_function_block
  dsimp only
  split
  · split <;> simp [append_issues]
  · rfl

theorem analyze_js_function_block_metrics (st : AnalyzerState) (lines : List String)
    (i : Nat) (name fp : String) :
    (analyze_js_function_block st lines i name fp).metrics = st.metrics := by
  unfold analyze_js_function_block
  dsimp only
  split
  · split <;> simp [append_issues]
  · rfl

theorem analyze_javascript_file_thresholds (jm : String → Option String)
    (st : AnalyzerState) (lines : List String) (fp : String) :
    (analyze_javascript_file jm st lines fp).thresholds = st.thresholds := by
  simp only [analyze_javascript_file, append_issues_thresholds]
  refine foldl_preserves AnalyzerState.thresholds _ ?_ lines.enum st
  intro s p
  cases jm p.2 with
  | some n => exact analyze_js_function_block_thresholds s lines p.1 n fp
  | none => rfl

theorem analyze_javascript_file_metrics (jm : String → Option String)
    (st : AnalyzerState) (lines : List String) (fp : String) :
    (analyze_javascript_file jm st lines fp).metrics = st.metrics := by
  simp only [analyze_javascript_file, append_issues_metrics]
  refine foldl_preserves AnalyzerState.metrics _ ?_ lines.enum st
  intro s p
  cases jm p.2 with
  | some n => exact analyze_js_function_block_metrics s lines p.1 n fp
  | none => rfl

theorem analyze_file_thresholds (jm : String → Option String) (st : AnalyzerState)
    (inp : FileInput) :
    (analyze_file jm st inp).1.thresholds = st.thresholds := by
  unfold analyze_file
  split_ifs with h1 h2 h3
  · rfl
  · simp [mk_analysis_result, analyze_python_file_thresholds]
  · simp [mk_analysis_result, analyze_javascript_file_thresholds]
  · rfl

theorem mem_py_walk_list_of_mem {c : PyNode} {l : List PyNode} (hc : c ∈ l)
    {m : PyNode} (hm : m ∈ py_walk c) : m ∈ py_walk_list l := by
  induction l with
  | nil => cases hc
  | cons x xs ih =>
    rw [py_walk_list]
    rcases List.mem_cons.mp hc with h | h
    · subst h; exact List.mem_append_left _ hm
    · exact List.mem_append_right _ (ih h)

mutual
theorem cyclo_walk_clean : ∀ n : PyNode,
    (∀ m ∈ py_walk n, is_branch_kind m.kind = false ∧ m.kind ≠ .boolOpK) →
    cyclo_walk n = 0
  | .node k cs, h => by
    rw [cyclo_walk]
    have hself := h (.node k cs) (by rw [py_walk]; exact List.mem_cons_self _ _)
    have hsum : cyclo_walk_sum cs = 0 :=
      cyclo_walk_sum_clean cs (fun c hc m hm => h m (by
        rw [py_walk]
        exact List.mem_cons_of_mem _ (mem_py_walk_list_of_mem hc hm)))
    have hcontrib : cyclomatic_contrib k cs = 0 := by
      rcases hself with ⟨hb, hbo⟩
      cases k <;> simp_all [is_branch_kind, cyclomatic_contrib, PyNode.kind]
    omega
theorem cyclo_walk_sum_clean : ∀ l : List PyNode,
    (∀ c ∈ l, ∀ m ∈ py_walk c, is_branch_kind m.kind = false ∧ m.kind ≠ .boolOpK) →
    cyclo_walk_sum l = 0
  | [], _ => rfl
  | c :: cs, h => by
    rw [cyclo_walk_sum]
    rw [cyclo_walk_clean c (h c (List.mem_cons_self _ _)),
      cyclo_walk_sum_clean cs (fun x hx => h x (List.mem_cons_of_mem _ hx))]
end

theorem magic_count_aux (fp fn : String) : ∀ l : List PyNode,
    ((l.filterMap (magic_number_of fp fn)).filter has_example_text).length
      = (l.filter is_magic_constant).length := by
  intro l
  induction l with
  | nil => rfl
  | cons n t ih =>
    rcases n with ⟨k, cs⟩
    cases k with
    | constNum v ln =>
      by_cases h : ¬(v = 0 ∨ v = 1 ∨ v = -1) ∧ |v| > 1
      · simp [magic_number_of, is_magic_constant, h, magic_number_issue,
          has_example_text, ih]
      · have hd : is_magic_constant (PyNode.node (.constNum v ln) cs) = false := by
          unfold is_magic_constant
          exact decide_eq_false h
        have hm : magic_number_of fp fn (PyNode.node (.constNum v ln) cs) = none := by
          simp only [magic_number_of]
          rw [if_neg h]
        simp [List.filterMap_cons, List.filter_cons, hd, hm, ih]
    | ifK => simp [magic_number_of, is_magic_constant, ih]
    | whileK => simp [magic_number_of, is_magic_constant, ih]
    | forK => simp [magic_number_of, is_magic_constant, ih]
    | asyncForK => simp [magic_number_of, is_magic_constant, ih]
    | withK => simp [magic_number_of, is_magic_constant, ih]
    | asyncWithK => simp [magic_number_of, is_magic_constant, ih]
    | tryK => simp [magic_number_of, is_magic_constant, ih]
    | exceptHandlerK => simp [magic_number_of, is_magic_constant, ih]
    | boolOpK => simp [magic_number_of, is_magic_constant, ih]
    | constOther => simp [magic_number_of, is_magic_constant, ih]
    | passK => simp [magic_number_of, is_magic_constant, ih]
    | funcDefK => simp [magic_number_of, is_magic_constant, ih]
    | otherK => simp [magic_number_of, is_magic_constant, ih]

theorem empty_issue_no_example (f : FuncDef) (fp : String) (i : CodeIssue)
    (hi : i ∈ detect_code_smells_issues f fp) (hx : has_example_text i = true) :
    i ∈ (py_walk f.node).filterMap (magic_number_of fp f.name) := by
  unfold detect_code_smells_issues at hi
  rcases List.mem_append.mp hi with h1 | h2
  · exfalso
    unfold empty_function_issues at h1
    split at h1
    · rcases List.mem_singleton.mp h1 with rfl
      simp [has_example_text] at hx
    · cases h1
  · exact h2

theorem magic_issue_fields (f : FuncDef) (fp : String) (i : CodeIssue)
    (hi : i ∈ (py_walk f.node).filterMap (magic_number_of fp f.name)) :
    i.severity = .minor ∧ i.type = .smell ∧ i.metric_value = none := by
  rcases List.mem_filterMap.mp hi with ⟨n, _, hsome⟩
  rcases n with ⟨k, cs⟩
  cases k <;> simp [magic_number_of] at hsome
  case constNum v ln =>
    rcases hsome with ⟨-, rfl⟩
    simp [magic_number_issue]

theorem find_first_dup_some (lines : List String) (i : Nat) :
    ∀ (n a j : Nat), find_first_dup lines i (List.range' a n) = some j →
      a ≤ j ∧ j < a + n ∧ dup_window lines j = dup_window lines i ∧
        ∀ k, a ≤ k → k < j → dup_window lines k ≠ dup_window lines i := by
  intro n
  induction n with
  | zero => intro a j h; simp [find_first_dup] at h
  | succ m ih =>
    intro a j h
    rw [List.range'_succ] at h
    unfold find_first_dup at h
    by_cases hw : dup_window lines a = dup_window lines i
    · rw [if_pos hw] at h
      cases h
      exact ⟨Nat.le_refl _, by omega, hw, fun k hk1 hk2 => absurd hk2 (by omega)⟩
    · rw [if_neg hw] at h
      obtain ⟨h1, h2, h3, h4⟩ := ih (a + 1) j h
      refine ⟨by omega, by omega, h3, fun k hk1 hk2 => ?_⟩
      rcases Nat.eq_or_lt_of_le hk1 with rfl | hlt
      · exact hw
      · exact h4 k (by omega) hk2

theorem dup_pair_elim (lines : List String) (i j : Nat)
    (h : (i, j) ∈ detect_code_duplication_pairs lines) :
    find_first_dup lines i (dup_scan_range lines i) = some j := by
  unfold detect_code_duplication_pairs at h
  rcases List.mem_filterMap.mp h with ⟨a, _, heq⟩
  by_cases hs : dup_window_skippable (dup_window lines a)
  · rw [if_pos hs] at heq; cases heq
  · rw [if_neg hs] at heq
    rcases Option.map_eq_some'.mp heq with ⟨j0, hfind, hpair⟩
    cases hpair
    exact hfind

theorem py_round2_real_bounds {x : ℝ} (h0 : 0 ≤ x) (h1 : x ≤ 100) :
    0 ≤ py_round2_real x ∧ py_round2_real x ≤ 100 := by
  unfold py_round2_real
  have hlow : (0 : ℤ) ≤ round (x * 100) := by
    rw [round_eq]
    refine Int.le_floor.mpr ?_
    push_cast
    nlinarith
  have hhigh : round (x * 100) ≤ (10000 : ℤ) := by
    rw [round_eq]
    have : x * 100 + 1 / 2 < ((10001 : ℤ) : ℝ) := by push_cast; nlinarith
    have := Int.floor_lt.mpr this
    omega
  constructor
  · apply div_nonneg _ (by norm_num)
    exact_mod_cast hlow
  · rw [div_le_iff₀ (by norm_num : (0 : ℝ) < 100)]
    calc ((round (x * 100) : ℤ) : ℝ) ≤ ((10000 : ℤ) : ℝ) := by exact_mod_cast hhigh
      _ = 100 * 100 := by norm_num

theorem empty_function_issues_filtered (f : FuncDef) (fp : String) :
    (empty_function_issues f fp).filter has_example_text = [] := by
  unfold empty_function_issues
  split
  · rfl
  · rfl

/-! ## Claim theorems -/

/-- C1 (counterexample): in a function body holding the literals `42` and
`0.5` — two numeric literals whose absolute value is not in {0, 1} — the
smell detector emits exactly one magic-number issue (none for `0.5`), and
that issue's `metric_value` is `None` rather than the literal `42`,
refuting both the claimed trigger condition and the claimed
`metric_value` payload. -/
theorem C1_counterexample :
    ((py_walk c1_function.node).filter spec_magic_literal).length = 2 ∧
    (detect_code_smells_issues c1_function "example.py").map
      (fun i => (i.severity, i.type, i.line_number, i.metric_value))
      = [(.minor, .smell, 2, none)] := by
  exact ⟨by decide, by decide⟩

/-- C1 (amended): for every numeric literal with absolute value strictly
greater than 1 inside a function body the smell detector emits exactly
one issue per occurrence — the magic-number issues (those carrying an
example snippet) are in bijection with such literals — and every such
issue is `minor`/`smell` with `metric_value = None`; literals with
absolute value at most 1 (in particular 0, 1, -1 and fractions such as
0.5) never produce one. -/
theorem C1_amended_magic_numbers (f : FuncDef) (fp : String) :
    ((detect_code_smells_issues f fp).filter has_example_text).length
      = ((py_walk f.node).filter is_magic_constant).length ∧
    ∀ i ∈ detect_code_smells_issues f fp, has_example_text i = true →
      i.severity = .minor ∧ i.type = .smell ∧ i.metric_value = none := by
  constructor
  · unfold detect_code_smells_issues
    rw [List.filter_append, empty_function_issues_filtered, List.nil_append]
    exact magic_count_aux fp f.name (py_walk f.node)
  · intro i hi hx
    exact magic_issue_fields f fp i (empty_issue_no_example f fp i hi hx)

/-- C1 (witness): the amended theorem applied to the concrete function
holding `42` and `0.5`. -/
theorem C1_witness :
    ((detect_code_smells_issues c1_function "example.py").filter has_example_text).length
      = ((py_walk c1_function.node).filter is_magic_constant).length ∧
    (magic_number_issue "example.py" "scale" 42 2).severity = .minor ∧
    (magic_number_issue "example.py" "scale" 42 2).type = .smell ∧
    (magic_number_issue "example.py" "scale" 42 2).metric_value = none :=
  ⟨(C1_amended_magic_numbers c1_function "example.py").1,
   (C1_amended_magic_numbers c1_function "example.py").2
     (magic_number_issue "example.py" "scale" 42 2) (by decide) (by decide)⟩

/-- C2 (code bug): on a scan that found 21 code files, only 20 are kept
for analysis, but the truncation notice — built from `len(code_files)`
after the list was already truncated — reports "Found 20 total" instead
of the true total 21 that its own wording promises. -/
theorem C2_truncation_reports_cap_not_total :
    c2_files.length = 21 ∧
    (review_directory_truncation c2_files).1.length = 20 ∧
    (review_directory_truncation c2_files).2
      = "\n*Note: Limited to first 20 files. Found 20 total.*" := by
  exact ⟨by decide, by decide, by decide⟩

/-- C3 (counterexample): an 18-line file whose lines 1-6 and 12-17 are
identical non-trivial 6-line blocks separated by other code yields two
overlapping duplication issues (for the 5-line windows starting at each
of the two first lines of the block), not exactly one. -/
theorem C3_counterexample :
    c3_file.length = 18 ∧
    c3_file.take 6 = (c3_file.drop 11).take 6 ∧
    (detect_code_duplication_issues c3_file "dup.py").length = 2 := by
  exact ⟨by decide, by decide, by decide⟩

/-- C3 (amended): for every window start `i` the detector reports at most
one pair — the first later matching start inside the scanned range
`range(i+5, len(lines)-5)` — and scanning for that `i` then stops; a file
with two identical 6-line non-trivial blocks yields one issue per 5-line
window start of the block, hence two overlapping issues on the concrete
file, not exactly one. -/
theorem C3_amended_duplication :
    (∀ (lines : List String) (i j : Nat),
       (i, j) ∈ detect_code_duplication_pairs lines →
       i + min_duplicate_lines ≤ j ∧ j + min_duplicate_lines < lines.length ∧
       dup_window lines j = dup_window lines i ∧
       ∀ k, i + min_duplicate_lines ≤ k → k < j →
         dup_window lines k ≠ dup_window lines i) ∧
    (∀ (lines : List String) (i j j' : Nat),
       (i, j) ∈ detect_code_duplication_pairs lines →
       (i, j') ∈ detect_code_duplication_pairs lines → j = j') ∧
    detect_code_duplication_pairs c3_file = [(0, 11), (1, 12)] := by
  refine ⟨?_, ?_, by decide⟩
  · intro lines i j h
    have hfind := dup_pair_elim lines i j h
    unfold dup_scan_range at hfind
    obtain ⟨h1, h2, h3, h4⟩ := find_first_dup_some lines i _ _ _ hfind
    refine ⟨h1, ?_, h3, h4⟩
    unfold min_duplicate_lines at h1 h2 ⊢
    omega
  · intro lines i j j' hj hj'
    have ha := dup_pair_elim lines i j hj
    have hb := dup_pair_elim lines i j' hj'
    rw [ha] at hb
    exact Option.some.inj hb

/-- C3 (witness): the amended theorem applied to the concrete file at the
reported pair `(0, 11)`. -/
theorem C3_witness :
    dup_window c3_file 11 = dup_window c3_file 0 ∧
    0 + min_duplicate_lines ≤ 11 ∧
    11 + min_duplicate_lines < c3_file.length :=
  ⟨(C3_amended_duplication.1 c3_file 0 11 (by decide)).2.2.1,
   (C3_amended_duplication.1 c3_file 0 11 (by decide)).1,
   (C3_amended_duplication.1 c3_file 0 11 (by decide)).2.1⟩

/-- C4 (counterexample): for a method whose parameters are `self, r`,
the analyzer stores `parameter_count = 2` — `len(func_node.args.args)`
counts `self` — while the spec's receiver-excluding count is 1. -/
theorem C4_counterexample :
    (dict_lookup (analyze_python_function init_analyzer c4_lines c4_method
        "shapes.py").metrics "area").map CodeMetrics.parameter_count = some 2 ∧
    spec_parameter_count c4_method.args = 1 := by
  exact ⟨by decide, by decide⟩

/-- C4 (amended): the reported `parameter_count` of every analyzed Python
function is the full length of its declared argument list, implicit
receiver (`self`) included. -/
theorem C4_amended_parameter_count (st : AnalyzerState) (lines : List String)
    (f : FuncDef) (fp : String) :
    (dict_lookup (analyze_python_function st lines f fp).metrics f.name).map
      CodeMetrics.parameter_count = some f.args.length := by
  rw [analyze_python_function_metrics, dict_lookup_insert]
  rfl

/-- C5: a function with no conditional/loop/exception-handler/resource
-scope node and no boolean-operator chain anywhere in its walk has
cyclomatic complexity exactly 1; and a function of 12 sequential
top-level `if` statements has cyclomatic complexity 13 and nesting depth
1, and complexity 13 under the default thresholds is flagged as exactly
one `major` (not `critical`) complexity issue. -/
theorem C5_cyclomatic_properties :
    (∀ n : PyNode,
       (∀ m ∈ py_walk n, is_branch_kind m.kind = false ∧ m.kind ≠ .boolOpK) →
       calculate_cyclomatic_complexity n = 1) ∧
    calculate_cyclomatic_complexity twelve_if_function.node = 13 ∧
    calculate_nesting_depth twelve_if_function.node = 1 ∧
    (check_complexity_issues default_thresholds "handle_event" 13 1 "handlers.py").map
      (fun i => (i.severity, i.type)) = [(.major, .complexity)] := by
  refine ⟨?_, by decide, by decide, by decide⟩
  intro n h
  unfold calculate_cyclomatic_complexity
  rw [cyclo_walk_clean n h]

/-- C5 (witness): the straight-line function node has cyclomatic
complexity 1. -/
theorem C5_witness :
    calculate_cyclomatic_complexity straight_node = 1 :=
  C5_cyclomatic_properties.1 straight_node (by decide)

/-- C6: when `ast.parse` fails on a `.py` file, `analyze_file` returns
normally with exactly one issue — a `critical`/`syntax` issue carrying
the error location and message — and the returned `function_metrics`
mapping is empty. -/
theorem C6_syntax_error_single_issue (jm : String → Option String)
    (st : AnalyzerState) (inp : FileInput) (e : SyntaxErrInfo)
    (hf : inp.found = true) (hext : inp.ext = ".py")
    (hp : inp.py_parse = .error e) :
    (analyze_file jm st inp).2.1.length = 1 ∧
    (∀ i ∈ (analyze_file jm st inp).2.1,
       i.severity = .critical ∧ i.type = .syntaxK ∧
       i.line_number = lineno_or_one e.lineno ∧
       i.message = "Syntax error: " ++ e.msg) ∧
    (analyze_file jm st inp).2.2.function_metrics? = some [] := by
  unfold analyze_file
  rw [hf, hext, hp]
  simp [analyze_python_file, append_issues, mk_analysis_result,
    AnalysisOutput.function_metrics?]

/-- C6 (witness): the theorem applied to a concrete unparsable file. -/
theorem C6_witness :
    (analyze_file (fun _ => none) init_analyzer c6_input).2.1.length = 1 ∧
    (∀ i ∈ (analyze_file (fun _ => none) init_analyzer c6_input).2.1,
       i.severity = .critical ∧ i.type = .syntaxK ∧
       i.line_number = lineno_or_one (some 1) ∧
       i.message = "Syntax error: " ++ "invalid syntax") ∧
    (analyze_file (fun _ => none) init_analyzer c6_input).2.2.function_metrics?
      = some [] :=
  C6_syntax_error_single_issue (fun _ => none) init_analyzer c6_input
    { lineno := some 1, msg := "invalid syntax" } rfl rfl rfl

/-- C7: the maintainability index always lies within [0, 100], and an
empty function body (`loc = 0`) yields exactly 100. -/
theorem C7_maintainability_bounds (loc complexity cognitive : Nat) :
    0 ≤ calculate_maintainability_index loc complexity cognitive ∧
    calculate_maintainability_index loc complexity cognitive ≤ 100 ∧
    (loc = 0 → calculate_maintainability_index loc complexity cognitive = 100) := by
  by_cases h : loc = 0
  · subst h
    unfold calculate_maintainability_index
    norm_num
  · unfold calculate_maintainability_index
    rw [if_neg h]
    dsimp only
    have hA : (0 : ℝ) ≤ 5.2 * ((loc : ℝ) * 2.4) ^ (0.23 : ℝ) :=
      mul_nonneg (by norm_num) (Real.rpow_nonneg (by positivity) _)
    have hB : (0 : ℝ) ≤ 0.23 * (complexity : ℝ) :=
      mul_nonneg (by norm_num) (Nat.cast_nonneg _)
    have hC : (0 : ℝ) ≤ 16.2 * (loc : ℝ) ^ (0.5 : ℝ) :=
      mul_nonneg (by norm_num) (Real.rpow_nonneg (Nat.cast_nonneg _) _)
    have hEle : (171 - 5.2 * ((loc : ℝ) * 2.4) ^ (0.23 : ℝ) - 0.23 * (complexity : ℝ)
        - 16.2 * (loc : ℝ) ^ (0.5 : ℝ)) * 100 / 171 ≤ 100 := by
      rw [div_le_iff₀ (by norm_num : (0 : ℝ) < 171)]
      nlinarith
    have h1 : (0 : ℝ) ≤ max 0 ((171 - 5.2 * ((loc : ℝ) * 2.4) ^ (0.23 : ℝ)
        - 0.23 * (complexity : ℝ) - 16.2 * (loc : ℝ) ^ (0.5 : ℝ)) * 100 / 171) :=
      le_max_left _ _
    have h2 : max 0 ((171 - 5.2 * ((loc : ℝ) * 2.4) ^ (0.23 : ℝ)
        - 0.23 * (complexity : ℝ) - 16.2 * (loc : ℝ) ^ (0.5 : ℝ)) * 100 / 171) ≤ 100 :=
      max_le (by norm_num) hEle
    obtain ⟨hr1, hr2⟩ := py_round2_real_bounds h1 h2
    exact ⟨hr1, hr2, fun hc => absurd hc h⟩

/-- C7 (witness): the bounds theorem applied at `loc = 0` and at a
non-empty function. -/
theorem C7_witness :
    calculate_maintainability_index 0 1 0 = 100 ∧
    0 ≤ calculate_maintainability_index 7 3 2 ∧
    calculate_maintainability_index 7 3 2 ≤ 100 :=
  ⟨(C7_maintainability_bounds 0 1 0).2.2 rfl,
   (C7_maintainability_bounds 7 3 2).1,
   (C7_maintainability_bounds 7 3 2).2.1⟩

/-- C8: on every successful analysis result the `issues_by_severity`
counts sum exactly to the length of the returned issue list. -/
theorem C8_severity_counts_sum (jm : String → Option String)
    (st : AnalyzerState) (inp : FileInput) :
    output_sum_ok (analyze_file jm st inp) := by
  unfold analyze_file
  split_ifs
  · exact trivial
  · exact output_sum_ok_mk _ _
  · exact output_sum_ok_mk _ _
  · exact trivial

/-- C9: `analyze_file` resets `self.issues` and `self.metrics` on entry,
so two analyzer states with equal thresholds — e.g. a fresh analyzer and
one that analyzed other files before — produce identical results on the
same input, and the thresholds survive the call unchanged. -/
theorem C9_fresh_accumulator (jm : String → Option String)
    (s1 s2 : AnalyzerState) (inp : FileInput)
    (h : s1.thresholds = s2.thresholds) :
    analyze_file jm s1 inp = analyze_file jm s2 inp ∧
    (analyze_file jm s1 inp).1.thresholds = s1.thresholds := by
  constructor
  · have h0 : ({ s1 with issues := [], metrics := [] } : AnalyzerState)
        = { s2 with issues := [], metrics := [] } := by
      cases s1; cases s2; simp_all
    unfold analyze_file
    rw [h0]
  · exact analyze_file_thresholds jm s1 inp

/-- C9 (witness): a state polluted by an earlier call and a fresh
analyzer return identical results on the same file. -/
theorem C9_witness :
    analyze_file (fun _ => none) stale_state c6_input
      = analyze_file (fun _ => none) init_analyzer c6_input ∧
    (analyze_file (fun _ => none) stale_state c6_input).1.thresholds
      = stale_state.thresholds :=
  C9_fresh_accumulator (fun _ => none) stale_state init_analyzer c6_input rfl

/-- C10: a JavaScript/TypeScript file that analyzes successfully always
returns an empty `function_metrics` mapping — the JavaScript path never
records per-function `CodeMetrics`. -/
theorem C10_js_no_function_metrics (jm : String → Option String)
    (st : AnalyzerState) (inp : FileInput) (hf : inp.found = true)
    (hext : [".js", ".ts", ".jsx", ".tsx"].contains inp.ext = true) :
    (analyze_file jm st inp).2.2.function_metrics? = some [] := by
  have hne : ¬ inp.ext = ".py" := by
    intro hpy
    rw [hpy] at hext
    have hfalse : ([".js", ".ts", ".jsx", ".tsx"].contains ".py") = false := by decide
    rw [hfalse] at hext
    cases hext
  unfold analyze_file
  rw [hf]
  rw [if_neg (by simp : ¬ (true = false))]
  rw [if_neg hne, if_pos hext]
  simp [mk_analysis_result, AnalysisOutput.function_metrics?,
    analyze_javascript_file_metrics]

/-- C10 (witness): the theorem applied to a concrete `.js` file. -/
theorem C10_witness :
    (analyze_file (fun _ => none) init_analyzer c10_input).2.2.function_metrics?
      = some [] :=
  C10_js_no_function_metrics (fun _ => none) init_analyzer c10_input rfl (by decide)
